import Mathlib

/-!
Verification of the FIDO2 user-verifier selection core
(`ctap_keyring_device/user_verifiers/ctap_user_verifier_factory.py`) and the
demonstration script (`main.py`).

The factory code reads the host platform, optionally constructs the Darwin
Touch ID verifier, probes its `available()` method, and falls back to the
no-op verifier.  Python-level exceptions raised by the constructor or by the
probe are not caught inside `create()`; they propagate to the caller.  We
embed that behaviour with `Except String` results over an explicit
environment recording the host platform string, whether the conditional
module import of `TouchIdCtapUserVerifier` succeeded (`is not None`), and the
outcomes of constructing the Touch ID verifier and of its `available()` call.
-/

namespace Fido2Test

/-- The concrete verifier classes the factory can hand out. -/
inductive Verifier where
  | touchId
  | noop
  deriving DecidableEq, Repr

/-- Runtime environment observed by one `CtapUserVerifierFactory.create()`
call: `system` is `platform.system()`; `touchIdImported` is whether the
module-level `try: import TouchIdCtapUserVerifier` succeeded (i.e. the name
is not bound to `None`); `construct` is the outcome of evaluating
`TouchIdCtapUserVerifier()` (exceptions carried as `Except.error`);
`availableResult` is the outcome of `touch_id_verifier.available()`. -/
structure Env where
  system : String
  touchIdImported : Bool
  construct : Except String Unit
  availableResult : Except String Bool
  deriving Repr

/-- Instrumented embedding of `CtapUserVerifierFactory.create()`
(ctap_user_verifier_factory.py lines 21-29).  The second component records
whether the Touch ID branch was entered, i.e. whether
`TouchIdCtapUserVerifier()` was constructed and probed.  The body mirrors the
Python: `if system == 'Darwin' and TouchIdCtapUserVerifier is not None:`
construct, probe `available()`, return the Touch ID verifier on `True`;
otherwise fall through to `return NoopCtapUserVerifier()`.  No exception
handler exists inside `create`, so constructor or probe exceptions
propagate. -/
def createT (env : Env) : Except String Verifier × Bool :=
  if env.system = "Darwin" ∧ env.touchIdImported = true then
    match env.construct with
    | Except.error e => (Except.error e, true)
    | Except.ok _ =>
      match env.availableResult with
      | Except.error e => (Except.error e, true)
      | Except.ok true => (Except.ok Verifier.touchId, true)
      | Except.ok false => (Except.ok Verifier.noop, true)
  else
    (Except.ok Verifier.noop, false)

/-- `CtapUserVerifierFactory.create()`: the value returned (or exception
raised) by one call, forgetting the instrumentation. -/
def create (env : Env) : Except String Verifier :=
  (createT env).1

/-- Outcomes of a `verify(...)` call, from the spec's `VerificationResult`
taxonomy. -/
inductive VerificationResult where
  | verified
  | notVerified
  | unavailable
  | error (reason : String)
  deriving DecidableEq, Repr

/-- Modelled from the spec: `NoopCtapUserVerifier.available()` — the class
body is not part of the provided sources (only the factory imports it); the
spec states the Noop variant always reports `available() == true`.  The
environment argument records that the answer is probed afresh on each call
in each environment. -/
def NoopCtapUserVerifier.available (_env : Env) : Bool :=
  true

/-- Modelled from the spec: `NoopCtapUserVerifier.verify(context)` — the
class body is not part of the provided sources; the spec states the Noop
variant returns `Verified` unconditionally, for every input context. -/
def NoopCtapUserVerifier.verify (_context : String) : VerificationResult :=
  VerificationResult.verified

/-! ### Embedding of `main.py`'s `authentication_flow` -/

/-- The registration data dictionary produced by `registration_flow`
(main.py lines 115-121). -/
structure RegData where
  credential_id : List Nat
  rp_id : String
  user_id : String
  challenge : List Nat
  deriving DecidableEq, Repr

/-- Observable construction steps of `authentication_flow` past its early
`return False` guard (main.py lines 136-175): device setup via
`CtapKeyringDevice.list_devices()[0]`, `Fido2Client` construction, building
the `PublicKeyCredentialRequestOptions` assertion request, and the
`client.get_assertion(options)` call. -/
inductive AuthStep where
  | deviceSetup
  | clientInit
  | assertionRequest
  | getAssertionCall
  deriving DecidableEq, Repr

/-- External-collaborator outcomes consumed by `authentication_flow`:
the device list returned by `CtapKeyringDevice.list_devices()` and the
outcome of `client.get_assertion(options)` (exceptions as `Except.error`). -/
structure AuthEnv where
  devices : List Unit
  getAssertion : Except String Unit
  deriving Repr

/-- Embedding of `authentication_flow(logger, registration_data)`
(main.py lines 128-193).  With `registration_data` falsy (`None`) it returns
`False` at once (lines 132-134), performing none of the construction steps.
Otherwise it indexes `list_devices()[0]` (an `IndexError` propagates when the
list is empty), builds the client and the assertion request, and wraps only
the `get_assertion` call in `try/except`, returning `True` on success and
`False` on a caught exception.  The second component is the trace of
construction steps performed. -/
def authentication_flow (registration_data : Option RegData) (env : AuthEnv) :
    Except String Bool × List AuthStep :=
  match registration_data with
  | none => (Except.ok false, [])
  | some _ =>
    match env.devices with
    | [] => (Except.error "IndexError: list index out of range",
             [AuthStep.deviceSetup])
    | _ :: _ =>
      match env.getAssertion with
      | Except.ok _ =>
        (Except.ok true,
         [AuthStep.deviceSetup, AuthStep.clientInit,
          AuthStep.assertionRequest, AuthStep.getAssertionCall])
      | Except.error _ =>
        (Except.ok false,
         [AuthStep.deviceSetup, AuthStep.clientInit,
          AuthStep.assertionRequest, AuthStep.getAssertionCall])

/-! ### Claims -/

/-- C1 (counterexample): the claim that `create()` never raises for every
outcome of the availability probe is false — on Darwin with the Touch ID
class imported and constructed, a `RuntimeError` raised by `available()`
propagates out of `create()` instead of yielding a verifier. -/
theorem create_raises_on_probe_error :
    create ⟨"Darwin", true, Except.ok (), Except.error "RuntimeError"⟩ =
      Except.error "RuntimeError" := by
  rfl

/-- C1 (amended): for every host platform, whenever constructing the Touch
ID verifier and probing `available()` complete normally (return rather than
raise), `create()` terminates with a verifier — Touch ID or Noop — and never
an error. -/
theorem create_total_when_probe_returns (env : Env) (b : Bool)
    (hc : env.construct = Except.ok ())
    (ha : env.availableResult = Except.ok b) :
    create env = Except.ok Verifier.touchId ∨
      create env = Except.ok Verifier.noop := by
  unfold create createT
  by_cases h : env.system = "Darwin" ∧ env.touchIdImported = true
  · rw [if_pos h, hc, ha]
    cases b
    · right; rfl
    · left; rfl
  · rw [if_neg h]
    right; rfl

/-- C1 witness: the amended totality theorem at a concrete environment. -/
theorem create_total_when_probe_returns_witness :
    create ⟨"Darwin", true, Except.ok (), Except.ok true⟩ =
        Except.ok Verifier.touchId ∨
      create ⟨"Darwin", true, Except.ok (), Except.ok true⟩ =
        Except.ok Verifier.noop :=
  create_total_when_probe_returns
    ⟨"Darwin", true, Except.ok (), Except.ok true⟩ true rfl rfl

/-- C2: whenever the Touch ID constructor succeeds and `available()` reports
`false`, `create()` returns the `NoopCtapUserVerifier` fallback. -/
theorem create_noop_when_unavailable (env : Env)
    (hc : env.construct = Except.ok ())
    (ha : env.availableResult = Except.ok false) :
    create env = Except.ok Verifier.noop := by
  unfold create createT
  by_cases h : env.system = "Darwin" ∧ env.touchIdImported = true
  · rw [if_pos h, hc, ha]
  · rw [if_neg h]

/-- C2 witness: fallback to Noop at a concrete Darwin environment whose
probe reports `false`. -/
theorem create_noop_when_unavailable_witness :
    create ⟨"Darwin", true, Except.ok (), Except.ok false⟩ =
      Except.ok Verifier.noop :=
  create_noop_when_unavailable
    ⟨"Darwin", true, Except.ok (), Except.ok false⟩ rfl rfl

/-- C3: on Darwin with the Touch ID verifier imported, constructed, and
reporting `available() == true`, `create()` returns the Touch ID verifier,
not the Noop fallback. -/
theorem create_touch_id_when_available (env : Env)
    (hs : env.system = "Darwin")
    (hi : env.touchIdImported = true)
    (hc : env.construct = Except.ok ())
    (ha : env.availableResult = Except.ok true) :
    create env = Except.ok Verifier.touchId := by
  unfold create createT
  rw [if_pos ⟨hs, hi⟩, hc, ha]

/-- C3 witness: Touch ID chosen at a concrete available Darwin
environment. -/
theorem create_touch_id_when_available_witness :
    create ⟨"Darwin", true, Except.ok (), Except.ok true⟩ =
      Except.ok Verifier.touchId :=
  create_touch_id_when_available
    ⟨"Darwin", true, Except.ok (), Except.ok true⟩ rfl rfl rfl rfl

/-- C4 (counterexample): the claim that `create()` catches every probe or
constructor exception and still returns the Noop fallback is false — a
constructor exception on Darwin propagates to the caller instead of
producing the Noop verifier. -/
theorem create_propagates_constructor_error :
    create ⟨"Darwin", true, Except.error "constructor failed",
        Except.ok true⟩ ≠ Except.ok Verifier.noop := by
  intro h
  simp [create, createT] at h

/-- C4 (amended): an exception raised by the Touch ID constructor, or by its
`available()` probe, on the Darwin branch propagates unchanged to the caller
of `create()`; only the failed import (the name bound to `None`) is handled,
by skipping the branch. -/
theorem create_propagates_probe_error (env : Env) (e : String)
    (hs : env.system = "Darwin")
    (hi : env.touchIdImported = true)
    (he : env.construct = Except.error e ∨
      (env.construct = Except.ok () ∧ env.availableResult = Except.error e)) :
    create env = Except.error e := by
  unfold create createT
  rw [if_pos ⟨hs, hi⟩]
  rcases he with hce | ⟨hok, hae⟩
  · rw [hce]
  · rw [hok, hae]

/-- C4 witness: the propagation theorem at a concrete environment whose
probe raises. -/
theorem create_propagates_probe_error_witness :
    create ⟨"Darwin", true, Except.ok (), Except.error "boom"⟩ =
      Except.error "boom" :=
  create_propagates_probe_error
    ⟨"Darwin", true, Except.ok (), Except.error "boom"⟩ "boom" rfl rfl
    (Or.inr ⟨rfl, rfl⟩)

/-- C5: when the conditional import failed and `TouchIdCtapUserVerifier` is
bound to `None`, `create()` skips the platform branch and returns the Noop
verifier without failing — even on Darwin, and whatever the (never consulted)
constructor and probe outcomes would have been. -/
theorem create_noop_when_import_failed (env : Env)
    (hi : env.touchIdImported = false) :
    createT env = (Except.ok Verifier.noop, false) := by
  unfold createT
  rw [if_neg]
  intro ⟨_, h2⟩
  rw [hi] at h2
  exact Bool.false_ne_true h2

/-- C5 witness: the import-failed theorem on Darwin with a raising probe. -/
theorem create_noop_when_import_failed_witness :
    createT ⟨"Darwin", false, Except.error "ImportError",
        Except.error "ImportError"⟩ = (Except.ok Verifier.noop, false) :=
  create_noop_when_import_failed
    ⟨"Darwin", false, Except.error "ImportError", Except.error "ImportError"⟩
    rfl

/-- C6: on a platform with no registered platform-specific verifier (any
system other than Darwin), `create()` returns the Noop verifier, and that
verifier's `verify()` yields `Verified` for every input context. -/
theorem create_noop_verifies_off_darwin (env : Env) (context : String)
    (hs : env.system ≠ "Darwin") :
    create env = Except.ok Verifier.noop ∧
      NoopCtapUserVerifier.verify context = VerificationResult.verified := by
  refine ⟨?_, rfl⟩
  unfold create createT
  rw [if_neg]
  intro ⟨h1, _⟩
  exact hs h1

/-- C6 witness: the off-Darwin theorem at a concrete Linux environment and
context. -/
theorem create_noop_verifies_off_darwin_witness :
    create ⟨"Linux", true, Except.ok (), Except.ok true⟩ =
        Except.ok Verifier.noop ∧
      NoopCtapUserVerifier.verify "ctx" = VerificationResult.verified :=
  create_noop_verifies_off_darwin
    ⟨"Linux", true, Except.ok (), Except.ok true⟩ "ctx" (by decide)

/-- C7: `NoopCtapUserVerifier.available()` returns `true` on every call, in
every environment. -/
theorem noop_always_available (env : Env) :
    NoopCtapUserVerifier.available env = true :=
  rfl

/-- C8: `create()` is deterministic and stateless — its result is a function
of the platform identity, the import outcome, and the constructor/probe
outcomes alone, so two calls observing the same values choose the same
variant. -/
theorem create_deterministic (env₁ env₂ : Env)
    (hs : env₁.system = env₂.system)
    (hi : env₁.touchIdImported = env₂.touchIdImported)
    (hc : env₁.construct = env₂.construct)
    (ha : env₁.availableResult = env₂.availableResult) :
    create env₁ = create env₂ := by
  have : env₁ = env₂ := by
    cases env₁
    cases env₂
    simp_all
  rw [this]

/-- C8 witness: determinism at two identical concrete environments. -/
theorem create_deterministic_witness :
    create ⟨"Darwin", true, Except.ok (), Except.ok true⟩ =
      create ⟨"Darwin", true, Except.ok (), Except.ok true⟩ :=
  create_deterministic
    ⟨"Darwin", true, Except.ok (), Except.ok true⟩
    ⟨"Darwin", true, Except.ok (), Except.ok true⟩ rfl rfl rfl rfl

/-- C9: for every host platform other than Darwin, `create()` returns the
Noop verifier without constructing or probing the Touch ID verifier (the
branch-entered flag stays `false`), whatever the constructor and probe
outcomes would have been. -/
theorem create_skips_touch_id_off_darwin (env : Env)
    (hs : env.system ≠ "Darwin") :
    createT env = (Except.ok Verifier.noop, false) := by
  unfold createT
  rw [if_neg]
  intro ⟨h1, _⟩
  exact hs h1

/-- C9 witness: the skip theorem at a concrete Windows environment whose
probe would have raised. -/
theorem create_skips_touch_id_off_darwin_witness :
    createT ⟨"Windows", true, Except.error "never run",
        Except.error "never run"⟩ = (Except.ok Verifier.noop, false) :=
  create_skips_touch_id_off_darwin
    ⟨"Windows", true, Except.error "never run", Except.error "never run"⟩
    (by decide)

/-- C10: `authentication_flow` called with `registration_data = None`
returns `False` immediately, performing none of the device, client, or
assertion-request construction steps, in every external environment. -/
theorem authentication_flow_none_returns_false (env : AuthEnv) :
    authentication_flow none env = (Except.ok false, []) :=
  rfl

end Fido2Test
